import Mathlib

/-!
Verification of the image-generation Lambda handler (src/src/app.py).

The handler is embedded shallowly:

* Python JSON-compatible values become the inductive type JVal.
* The external services (Bedrock invoke_model, S3 put_object /
  generate_presigned_url) and the ambient effects (datetime.datetime.utcnow,
  uuid.uuid4) become an explicit World record supplied to the handler; each
  fallible call is an Option/Bool field (none / false = the call raised).
* The Python standard-library functions json.loads and base64.b64decode
  (composed with bytes.decode, as the source composes them) are opaque
  external functions, passed in as parameters of type String -> Option _
  (none = the library call raised); theorems that depend on their documented
  behaviour (e.g. loads of dumps round-trips) take that behaviour as a
  hypothesis at the point used.
* Python attribute/subscript errors that the source does not catch
  (AttributeError from .get or .strip on a non-dict / non-str value,
  TypeError / KeyError / IndexError from indexing) are modelled with
  Except PyErr: an .error result means the handler raised an unhandled
  exception, an .ok result is the returned response object.
* Alongside the response, the embedding returns the list of external calls
  made (model invocation, storage write, presign), so that claims of the
  form "the model is never invoked" / "no storage write occurs" are
  statements about that list.
-/

namespace ImgGen

/-- Python JSON-compatible values: None, bool, number, str, list, dict. -/
inductive JVal where
  | null
  | bool (b : Bool)
  | num (n : Int)
  | str (s : String)
  | arr (elems : List JVal)
  | obj (fields : List (String × JVal))

/-- Python truthiness for JSON-compatible values. -/
def truthy : JVal → Bool
  | .null => false
  | .bool b => b
  | .num n => n != 0
  | .str s => s != ""
  | .arr xs => !xs.isEmpty
  | .obj fs => !fs.isEmpty

/-- Python dict.get with a default: first binding of the key, else the default. -/
def dictGetD (fields : List (String × JVal)) (k : String) (d : JVal) : JVal :=
  match fields.lookup k with
  | some v => v
  | none => d

/-- Uncaught Python exceptions that the handler can raise. -/
inductive PyErr where
  | attributeError
  | typeError
  | keyError
  | indexError
deriving DecidableEq, Repr

/-- Python v.get(k): a dict yields its entry (None when absent); any other
value has no .get attribute and raises AttributeError. -/
def pyGet (v : JVal) (k : String) : Except PyErr JVal :=
  match v with
  | .obj fs => .ok (dictGetD fs k .null)
  | _ => .error .attributeError

/-- Python v.get(k, d) with an explicit default. -/
def pyGetD (v : JVal) (k : String) (d : JVal) : Except PyErr JVal :=
  match v with
  | .obj fs => .ok (dictGetD fs k d)
  | _ => .error .attributeError

/-- Python a or b. -/
def pyOr (a b : JVal) : JVal :=
  if truthy a then a else b

/-- Python v[0]: list head (IndexError when empty), first character of a str
(IndexError when empty), KeyError for a string-keyed dict, TypeError otherwise. -/
def pyIndex0 : JVal → Except PyErr JVal
  | .arr [] => .error .indexError
  | .arr (x :: _) => .ok x
  | .str s =>
    match s.data with
    | [] => .error .indexError
    | c :: _ => .ok (.str (String.singleton c))
  | .obj _ => .error .keyError
  | _ => .error .typeError

/-- Python v is None. -/
def isNone : JVal → Bool
  | .null => true
  | _ => false

/-- ASCII whitespace stripped by Python str.strip(). -/
def isPySpace (c : Char) : Bool :=
  c == ' ' || c == '\t' || c == '\n' || c == '\r' || c == '\x0b' || c == '\x0c'

/-- Python str.strip(): drop leading and trailing whitespace. -/
def pyStrip (s : String) : String :=
  String.mk (((s.data.dropWhile isPySpace).reverse.dropWhile isPySpace).reverse)

/-- Python s[:n]: the first n characters. -/
def strTake (s : String) (n : Nat) : String :=
  String.mk (s.data.take n)

/-- Environment-sourced configuration read at cold start (OUTPUT_BUCKET,
MODEL_ID, KEY_PREFIX; BEDROCK_REGION only parameterises the client). -/
structure Config where
  outputBucket : String
  modelId : String
  keyPfx : String
deriving DecidableEq, Repr

/-- A UTC wall-clock instant as destructured by strftime. -/
structure DateTime where
  year : Nat
  month : Nat
  day : Nat
  hour : Nat
  minute : Nat
  second : Nat
deriving DecidableEq, Repr

/-- The behaviour of the external world during one invocation: the Bedrock
call (none = the call raised, some raw = the response body read as a string),
the S3 put (false = raised), the presign call (none = raised), the value of
datetime.datetime.utcnow() and the 128-bit value drawn by uuid.uuid4(). -/
structure World where
  bedrockBody : Option String
  s3PutOk : Bool
  presignUrl : Option String
  now : DateTime
  uuid4 : Nat
deriving DecidableEq, Repr

/-- External calls the handler makes, in order. -/
inductive Effect where
  | invokeModel (modelId : String) (prompt : String)
  | s3Put (bucket : String) (key : String) (body : String)
  | presign (bucket : String) (key : String) (expiresIn : Nat)
deriving DecidableEq, Repr

def Effect.isS3Put : Effect → Bool
  | .s3Put _ _ _ => true
  | _ => false

def Effect.isPresign : Effect → Bool
  | .presign _ _ _ => true
  | _ => false

def Effect.isInvokeModel : Effect → Bool
  | .invokeModel _ _ => true
  | _ => false

/-- The response object. The source's _resp serializes the body dict with
json.dumps; the embedding keeps the body structured, as every claim is about
its fields. -/
structure Response where
  statusCode : Nat
  headers : List (String × String)
  body : JVal

def respHeaders : List (String × String) :=
  [("Content-Type", "application/json"), ("Access-Control-Allow-Origin", "*")]

/-- _resp(status_code, body) from the source. -/
def _resp (statusCode : Nat) (body : JVal) : Response :=
  { statusCode := statusCode, headers := respHeaders, body := body }

/-- The dict {"__parse_error__": msg} the normalizer returns on failure. -/
def parseErrObj (msg : String) : JVal :=
  .obj [("__parse_error__", .str msg)]

/-- _parse_event from the source. jsonLoads models json.loads (none =
json.JSONDecodeError); b64decode models base64.b64decode(...).decode("utf-8")
(none = either step raised). -/
def _parse_event (jsonLoads : String → Option JVal) (b64decode : String → Option String)
    (event : JVal) : JVal :=
  match event with
  | .obj fields =>
    if (fields.lookup "body").isSome then
      let body := dictGetD fields "body" .null
      let decoded : Except String JVal :=
        match body with
        | .str s =>
          if truthy (dictGetD fields "isBase64Encoded" .null) then
            match b64decode s with
            | some t => .ok (.str t)
            | none => .error "Invalid base64-encoded body"
          else .ok body
        | _ => .ok body
      match decoded with
      | .error msg => parseErrObj msg
      | .ok (.str s) =>
        match jsonLoads s with
        | some v => v
        | none => parseErrObj "Invalid JSON in request body"
      | .ok (.obj fs) => .obj fs
      | .ok _ => parseErrObj "Unsupported body format"
    else event
  | _ => .obj []

/-- Source lines 120-122: the timestamp segment of the key,
datetime.datetime.utcnow().strftime("%Y%m%d%H%M%S"): each %-directive is the
zero-padded decimal of the field (%Y to width 4, the rest to width 2). -/
def digitChar10 (d : Nat) : Char := Char.ofNat (48 + d)

def decRepr (n : Nat) : String :=
  if n = 0 then "0" else String.mk (((Nat.digits 10 n).map digitChar10).reverse)

def padZeroTo (w : Nat) (s : String) : String :=
  String.mk (List.replicate (w - s.length) (Char.ofNat 48)) ++ s

def strftimeYmdHMS (d : DateTime) : String :=
  padZeroTo 4 (decRepr d.year) ++ padZeroTo 2 (decRepr d.month) ++
  padZeroTo 2 (decRepr d.day) ++ padZeroTo 2 (decRepr d.hour) ++
  padZeroTo 2 (decRepr d.minute) ++ padZeroTo 2 (decRepr d.second)

/-- Lowercase hex digit character. -/
def hexDigitChar (d : Nat) : Char :=
  if d < 10 then Char.ofNat (48 + d) else Char.ofNat (87 + d)

def hexRepr (n : Nat) : String :=
  if n = 0 then "0" else String.mk (((Nat.digits 16 n).map hexDigitChar).reverse)

/-- uuid.uuid4().hex: the 128-bit value as 32 zero-padded lowercase hex chars. -/
def uuidHex (n : Nat) : String := padZeroTo 32 (hexRepr n)

/-- Source line 122: key = f"{KEY_PREFIX}poster_{ts}_{rid}.png" with
ts = strftime of utcnow and rid = uuid4().hex[:10]. -/
def keyOf (cfg : Config) (w : World) : String :=
  cfg.keyPfx ++ "poster_" ++ strftimeYmdHMS w.now ++ "_" ++ strTake (uuidHex w.uuid4) 10 ++ ".png"

/-- Source lines 115-118: base64-decode the first image inside a try block;
any exception there (indexing, a non-str element, a bad payload) is caught. -/
def decodeFirstImage (b64decode : String → Option String) (images : JVal) : Option String :=
  match pyIndex0 images with
  | .error _ => none
  | .ok (.str s) => b64decode s
  | .ok _ => none

/-- Source lines 120-152: key construction, s3.put_object, presign, 200 body.
The seed expression (data.get("seeds") or [None])[0] sits outside every try
block, so its indexing errors propagate. The effect list holds this stage's
own calls, in order; the caller prepends the calls already made. -/
def publishStage (cfg : Config) (w : World) (data : JVal) (imgBytes : String) :
    Except PyErr Response × List Effect :=
  let key := keyOf cfg w
  if w.s3PutOk then
    let effs := [Effect.s3Put cfg.outputBucket key imgBytes,
                 Effect.presign cfg.outputBucket key 3600]
    match w.presignUrl with
    | none => (.ok (_resp 502 (.obj [("error", .str "Failed to generate presigned URL")])), effs)
    | some url =>
      match pyGetD data "seeds" .null with
      | .error e => (.error e, effs)
      | .ok sv =>
        match pyIndex0 (pyOr sv (.arr [.null])) with
        | .error e => (.error e, effs)
        | .ok sd =>
          (.ok (_resp 200 (.obj [("bucket", .str cfg.outputBucket), ("key", .str key),
              ("url", .str url), ("seed", sd), ("modelId", .str cfg.modelId)])), effs)
  else (.ok (_resp 502 (.obj [("error", .str "S3 upload failed")])),
        [Effect.s3Put cfg.outputBucket key imgBytes])

/-- Source lines 111-118: images = data.get("images") or []; empty means 502;
otherwise decode the first image (decode failure means 502) and publish. -/
def imagesStage (b64decode : String → Option String) (cfg : Config) (w : World)
    (data : JVal) : Except PyErr Response × List Effect :=
  match pyGetD data "images" .null with
  | .error e => (.error e, [])
  | .ok iv =>
    let images := pyOr iv (.arr [])
    if truthy images then
      match decodeFirstImage b64decode images with
      | none => (.ok (_resp 502 (.obj [("error", .str "Image decode failed")])), [])
      | some imgBytes => publishStage cfg w data imgBytes
    else (.ok (_resp 502 (.obj [("error", .str "No image returned from model")])), [])

/-- Source lines 107-109: finish_reasons = data.get("finish_reasons", []);
if finish_reasons and finish_reasons[0] is not None: 400 echoing the list.
Both the .get on a non-dict payload and the subscript on a non-indexable
value raise outside any try block. -/
def withData (b64decode : String → Option String) (cfg : Config) (w : World)
    (data : JVal) : Except PyErr Response × List Effect :=
  match pyGetD data "finish_reasons" (.arr []) with
  | .error e => (.error e, [])
  | .ok fr =>
    if truthy fr then
      match pyIndex0 fr with
      | .error e => (.error e, [])
      | .ok x =>
        if isNone x then imagesStage b64decode cfg w data
        else (.ok (_resp 400 (.obj [("error", .str "Filtered/failed"), ("finish_reasons", fr)])), [])
    else imagesStage b64decode cfg w data

/-- Source lines 85-105: the Bedrock invocation (recorded as an effect even
when the call raises) and the parse of its response body; the invocation
effect is prepended to whatever the later stages do. -/
def modelStage (jsonLoads : String → Option JVal) (b64decode : String → Option String)
    (cfg : Config) (w : World) (prompt : String) : Except PyErr Response × List Effect :=
  let rest : Except PyErr Response × List Effect :=
    match w.bedrockBody with
    | none => (.ok (_resp 502 (.obj [("error", .str "Bedrock invoke failed")])), [])
    | some raw =>
      match jsonLoads raw with
      | none => (.ok (_resp 502 (.obj [("error", .str "Invalid Bedrock response")])), [])
      | some data => withData b64decode cfg w data
  (rest.fst, Effect.invokeModel cfg.modelId prompt :: rest.snd)

/-- lambda_handler from the source. The result pairs the outcome (an .ok
response object, or an .error for an uncaught Python exception) with the
list of external calls made. -/
def lambda_handler (jsonLoads : String → Option JVal) (b64decode : String → Option String)
    (cfg : Config) (w : World) (event : JVal) : Except PyErr Response × List Effect :=
  let payload := _parse_event jsonLoads b64decode event
  match pyGet payload "__parse_error__" with
  | .error e => (.error e, [])
  | .ok pe =>
    if truthy pe then (.ok (_resp 400 (.obj [("error", pe)])), [])
    else
      match pyGet payload "prompt" with
      | .error e => (.error e, [])
      | .ok pv =>
        match pyOr pv (.str "") with
        | .str s0 =>
          let prompt := pyStrip s0
          if prompt = "" then (.ok (_resp 400 (.obj [("error", .str "Missing 'prompt'")])), [])
          else if prompt.length > 800 then
            (.ok (_resp 400 (.obj [("error", .str "Prompt too long (max 800 chars)")])), [])
          else modelStage jsonLoads b64decode cfg w prompt
        | _ => (.error .attributeError, [])

/-- The field bounds utcnow() always satisfies (what the digit-count facts
about the strftime output need). -/
def validDT (d : DateTime) : Bool :=
  d.year ≤ 9999 && d.month ≤ 12 && d.day ≤ 31 && d.hour ≤ 23 &&
  d.minute ≤ 59 && d.second ≤ 59

/-- Lowercase hexadecimal digit character test. -/
def isHexLower (c : Char) : Bool :=
  c.isDigit || (97 ≤ c.toNat && c.toNat ≤ 102)

/-- Written from the claim's words, for comparison with the handler's output:
the seed field of a 200 response is the first element of the model's seeds
list, null when the list is absent or empty. -/
def headSeed (dataFs : List (String × JVal)) : JVal :=
  match dictGetD dataFs "seeds" .null with
  | .arr (x :: _) => x
  | _ => .null

/-- Concrete instances used by the closed evaluations below. -/
def loadsNone : String → Option JVal := fun _ => none

def b64none : String → Option String := fun _ => none

def cfg0 : Config :=
  { outputBucket := "poster-bucket", modelId := "stability.sd3-5-large-v1:0", keyPfx := "sd35/" }

def w0 : World :=
  { bedrockBody := none, s3PutOk := false, presignUrl := none,
    now := ⟨2026, 10, 12, 0, 0, 0⟩, uuid4 := 0 }

/-- json.loads on the string "[1, 2]" yields the list [1, 2]. -/
def loadsArrBody : String → Option JVal :=
  fun x => if x = "[1, 2]" then some (.arr [.num 1, .num 2]) else none

/-- json.loads on the string "1234" yields the number 1234; base64-decoding
the same string fails (its decoded bytes are not valid UTF-8). -/
def loadsNum : String → Option JVal :=
  fun x => if x = "1234" then some (.num 1234) else none

/-- A successful model response payload: one image, a null finish reason,
one seed. -/
def dataOk : List (String × JVal) :=
  [("finish_reasons", .arr [JVal.null]), ("images", .arr [.str "IMG"]), ("seeds", .arr [.num 12])]

def loadsOk : String → Option JVal :=
  fun x => if x = "RAW" then some (.obj dataOk) else none

def b64Ok : String → Option String :=
  fun x => if x = "IMG" then some "IMGBYTES" else none

def wOk : World :=
  { bedrockBody := some "RAW", s3PutOk := true, presignUrl := some "https://s3.example/signed",
    now := ⟨2026, 10, 12, 3, 4, 5⟩, uuid4 := 0xabc }

/-- World for the storage-write failure scenario: the model call succeeds,
the S3 put raises. -/
def wPutFail : World :=
  { bedrockBody := some "RAW", s3PutOk := false, presignUrl := some "https://s3.example/signed",
    now := ⟨2026, 10, 12, 3, 4, 5⟩, uuid4 := 0xabc }

/-- Model response whose first finish reason is non-null. -/
def dataFiltered : List (String × JVal) :=
  [("finish_reasons", .arr [.str "CONTENT_FILTERED", JVal.null]), ("images", .arr [.str "IMG"])]

def loadsFiltered : String → Option JVal :=
  fun x => if x = "RAW" then some (.obj dataFiltered) else none

/-- Codec instances for the normalization-transparency witness: "SER" stands
for json.dumps of the mapping, "B64" for the base64 encoding of "SER". -/
def loadsRt : String → Option JVal :=
  fun x => if x = "SER" then some (.obj [("prompt", .str "a red fox")]) else none

def b64Rt : String → Option String :=
  fun x => if x = "B64" then some "SER" else none

/-- Prompts at the 800-character boundary. -/
def s800 : String := String.mk (List.replicate 800 'a')

def s801 : String := String.mk (List.replicate 801 'a')

def ev800 : JVal := .obj [("prompt", .str s800)]

def ev801 : JVal := .obj [("prompt", .str s801)]

/-! ## Helper lemmas -/

theorem pyOr_str_empty (s : String) : pyOr (.str s) (.str "") = .str s := by
  unfold pyOr truthy
  by_cases h : s = "" <;> simp [h]

theorem dictGetD_of_lookup {fs : List (String × JVal)} {k : String} {v d : JVal}
    (h : fs.lookup k = some v) : dictGetD fs k d = v := by
  unfold dictGetD
  rw [h]

theorem digitChar10_isDigit {d : Nat} (h : d < 10) : (digitChar10 d).isDigit = true := by
  interval_cases d <;> decide

theorem hexDigitChar_isHexLower {d : Nat} (h : d < 16) : isHexLower (hexDigitChar d) = true := by
  interval_cases d <;> decide

theorem decRepr_chars (n : Nat) : ∀ c ∈ (decRepr n).data, c.isDigit = true := by
  intro c hc
  unfold decRepr at hc
  by_cases h : n = 0
  · simp [h] at hc
    subst hc
    decide
  · simp [h] at hc
    rcases hc with ⟨d, hd, rfl⟩
    exact digitChar10_isDigit (Nat.digits_lt_base (by norm_num) hd)

theorem hexRepr_chars (n : Nat) : ∀ c ∈ (hexRepr n).data, isHexLower c = true := by
  intro c hc
  unfold hexRepr at hc
  by_cases h : n = 0
  · simp [h] at hc
    subst hc
    decide
  · simp [h] at hc
    rcases hc with ⟨d, hd, rfl⟩
    exact hexDigitChar_isHexLower (Nat.digits_lt_base (by norm_num) hd)

theorem decRepr_length_le {n k : Nat} (hk : 0 < k) (h : n < 10 ^ k) :
    (decRepr n).length ≤ k := by
  unfold decRepr
  by_cases h0 : n = 0
  · simpa [h0] using hk
  · simp only [h0, if_false, String.length_mk, List.length_reverse, List.length_map]
    rw [Nat.digits_len 10 n (by norm_num) h0]
    have hl := Nat.log_lt_of_lt_pow h0 h
    omega

theorem hexRepr_length_le {n k : Nat} (hk : 0 < k) (h : n < 16 ^ k) :
    (hexRepr n).length ≤ k := by
  unfold hexRepr
  by_cases h0 : n = 0
  · simpa [h0] using hk
  · simp only [h0, if_false, String.length_mk, List.length_reverse, List.length_map]
    rw [Nat.digits_len 16 n (by norm_num) h0]
    have hl := Nat.log_lt_of_lt_pow h0 h
    omega

theorem padZeroTo_length {w : Nat} {s : String} (h : s.length ≤ w) :
    (padZeroTo w s).length = w := by
  unfold padZeroTo
  rw [String.length_append, String.length_mk, List.length_replicate]
  omega

theorem padZeroTo_chars {w : Nat} {s : String} {P : Char → Bool} (h0 : P (Char.ofNat 48) = true)
    (h : ∀ c ∈ s.data, P c = true) : ∀ c ∈ (padZeroTo w s).data, P c = true := by
  intro c hc
  unfold padZeroTo at hc
  rw [String.data_append] at hc
  rcases List.mem_append.mp hc with h1 | h2
  · have hc0 : c = Char.ofNat 48 := List.eq_of_mem_replicate (by simpa using h1)
    rw [hc0]
    exact h0
  · exact h c h2

theorem lt_of_le_of_pow_eq {n k m : Nat} (hm : m ^ k = v) (h : n < v) : n < m ^ k := hm ▸ h

theorem strftime_length_digits {d : DateTime} (h : validDT d = true) :
    (strftimeYmdHMS d).length = 14 ∧ ((strftimeYmdHMS d).data.all Char.isDigit) = true := by
  unfold validDT at h
  simp only [Bool.and_eq_true, decide_eq_true_eq] at h
  obtain ⟨⟨⟨⟨⟨hy, hmo⟩, hd⟩, hh⟩, hmi⟩, hs⟩ := h
  have hy4 : (padZeroTo 4 (decRepr d.year)).length = 4 :=
    padZeroTo_length (decRepr_length_le (by norm_num)
      (lt_of_le_of_pow_eq (v := 10000) (by norm_num) (by omega)))
  have hmo2 : (padZeroTo 2 (decRepr d.month)).length = 2 :=
    padZeroTo_length (decRepr_length_le (by norm_num)
      (lt_of_le_of_pow_eq (v := 100) (by norm_num) (by omega)))
  have hd2 : (padZeroTo 2 (decRepr d.day)).length = 2 :=
    padZeroTo_length (decRepr_length_le (by norm_num)
      (lt_of_le_of_pow_eq (v := 100) (by norm_num) (by omega)))
  have hh2 : (padZeroTo 2 (decRepr d.hour)).length = 2 :=
    padZeroTo_length (decRepr_length_le (by norm_num)
      (lt_of_le_of_pow_eq (v := 100) (by norm_num) (by omega)))
  have hmi2 : (padZeroTo 2 (decRepr d.minute)).length = 2 :=
    padZeroTo_length (decRepr_length_le (by norm_num)
      (lt_of_le_of_pow_eq (v := 100) (by norm_num) (by omega)))
  have hs2 : (padZeroTo 2 (decRepr d.second)).length = 2 :=
    padZeroTo_length (decRepr_length_le (by norm_num)
      (lt_of_le_of_pow_eq (v := 100) (by norm_num) (by omega)))
  constructor
  · unfold strftimeYmdHMS
    rw [String.length_append, String.length_append, String.length_append,
        String.length_append, String.length_append, hy4, hmo2, hd2, hh2, hmi2, hs2]
  · unfold strftimeYmdHMS
    simp only [String.data_append, List.all_append, Bool.and_eq_true]
    refine ⟨⟨⟨⟨⟨?_, ?_⟩, ?_⟩, ?_⟩, ?_⟩, ?_⟩ <;>
      (rw [List.all_eq_true]
       intro c hc
       exact padZeroTo_chars (by decide) (decRepr_chars _) c hc)

theorem rid_length_hex {n : Nat} (h : n < 2 ^ 128) :
    (strTake (uuidHex n) 10).length = 10 ∧ ((strTake (uuidHex n) 10).data.all isHexLower) = true := by
  have h16 : n < 16 ^ 32 :=
    lt_of_le_of_pow_eq (v := 2 ^ 128) (by norm_num) h
  have hlen : (uuidHex n).length = 32 :=
    padZeroTo_length (hexRepr_length_le (by norm_num) h16)
  have hdlen : (uuidHex n).data.length = 32 := hlen
  constructor
  · unfold strTake
    rw [String.length_mk, List.length_take, hdlen]
    omega
  · rw [List.all_eq_true]
    intro c hc
    unfold strTake at hc
    have hc2 : c ∈ (uuidHex n).data := List.take_subset 10 _ (by simpa using hc)
    exact padZeroTo_chars (by decide) (hexRepr_chars n) c hc2

theorem modelStage_effs (jsonLoads : String → Option JVal) (b64decode : String → Option String)
    (cfg : Config) (w : World) (prompt : String) :
    ∃ t, (modelStage jsonLoads b64decode cfg w prompt).snd
      = Effect.invokeModel cfg.modelId prompt :: t :=
  ⟨_, rfl⟩

theorem handler_valid_prompt (jsonLoads : String → Option JVal)
    (b64decode : String → Option String) (cfg : Config) (w : World) (event : JVal)
    (fs : List (String × JVal)) (s0 : String)
    (hpe : _parse_event jsonLoads b64decode event = .obj fs)
    (hmark : truthy (dictGetD fs "__parse_error__" .null) = false)
    (hprompt : dictGetD fs "prompt" .null = .str s0)
    (hne : pyStrip s0 ≠ "")
    (hlen : (pyStrip s0).length ≤ 800) :
    lambda_handler jsonLoads b64decode cfg w event
      = modelStage jsonLoads b64decode cfg w (pyStrip s0) := by
  unfold lambda_handler
  rw [hpe]
  simp only [pyGet, hmark, hprompt, pyOr_str_empty, Bool.false_eq_true, if_false,
    if_neg hne, if_neg (Nat.not_lt.mpr hlen)]

theorem modelStage_to_withData (jsonLoads : String → Option JVal)
    (b64decode : String → Option String) (cfg : Config) (w : World) (prompt raw : String)
    (data : JVal)
    (hbr : w.bedrockBody = some raw)
    (hdata : jsonLoads raw = some data) :
    modelStage jsonLoads b64decode cfg w prompt
      = ((withData b64decode cfg w data).fst,
         Effect.invokeModel cfg.modelId prompt :: (withData b64decode cfg w data).snd) := by
  unfold modelStage
  rw [hbr]
  dsimp only
  rw [hdata]

theorem withData_to_images (b64decode : String → Option String) (cfg : Config) (w : World)
    (dataFs : List (String × JVal)) (frs : List JVal)
    (hfr : dictGetD dataFs "finish_reasons" (.arr []) = .arr frs)
    (hfr0 : frs = [] ∨ ∃ ts, frs = JVal.null :: ts) :
    withData b64decode cfg w (.obj dataFs) = imagesStage b64decode cfg w (.obj dataFs) := by
  unfold withData
  simp only [pyGetD]
  rw [hfr]
  rcases hfr0 with h | ⟨ts, h⟩ <;> subst h
  · simp [truthy]
  · simp [truthy, pyIndex0, isNone]

theorem imagesStage_to_publish (b64decode : String → Option String) (cfg : Config) (w : World)
    (dataFs : List (String × JVal)) (imgv : JVal) (imgs : List JVal) (img bytes : String)
    (himg : dictGetD dataFs "images" .null = .arr (imgv :: imgs))
    (himgstr : imgv = .str img)
    (hdec : b64decode img = some bytes) :
    imagesStage b64decode cfg w (.obj dataFs) = publishStage cfg w (.obj dataFs) bytes := by
  unfold imagesStage
  simp only [pyGetD]
  rw [himg]
  subst himgstr
  simp [pyOr, truthy, decodeFirstImage, pyIndex0, hdec]

theorem publishStage_fail (cfg : Config) (w : World) (dataFs : List (String × JVal))
    (bytes : String) (hput : w.s3PutOk = false) :
    publishStage cfg w (.obj dataFs) bytes
      = (.ok (_resp 502 (.obj [("error", .str "S3 upload failed")])),
         [Effect.s3Put cfg.outputBucket (keyOf cfg w) bytes]) := by
  unfold publishStage
  rw [hput]
  simp

theorem publishStage_ok (cfg : Config) (w : World) (dataFs : List (String × JVal))
    (bytes url : String)
    (hput : w.s3PutOk = true) (hurl : w.presignUrl = some url)
    (hseeds : dictGetD dataFs "seeds" .null = .null
      ∨ ∃ l, dictGetD dataFs "seeds" .null = .arr l) :
    publishStage cfg w (.obj dataFs) bytes
      = (.ok (_resp 200 (.obj [("bucket", .str cfg.outputBucket),
            ("key", .str (keyOf cfg w)), ("url", .str url),
            ("seed", headSeed dataFs), ("modelId", .str cfg.modelId)])),
         [Effect.s3Put cfg.outputBucket (keyOf cfg w) bytes,
          Effect.presign cfg.outputBucket (keyOf cfg w) 3600]) := by
  unfold publishStage
  rw [hput, hurl]
  simp only [pyGetD, if_true]
  unfold headSeed
  rcases hseeds with h | ⟨l, h⟩
  · rw [h]
    simp [pyOr, truthy, pyIndex0]
  · rcases l with _ | ⟨x, xs⟩ <;> rw [h] <;> simp [pyOr, truthy, pyIndex0]

/-! ## Claims -/

/-- C1. The claim that lambda_handler always returns a well-formed response
object and never lets an exception propagate is violated by the code: for
the envelope with body the JSON text of a list (json.loads yields the list
value, as loadsArrBody records for the string between brackets), the
normalized payload is a list, payload.get raises an uncaught
AttributeError, and no response is produced; no external call is made. -/
theorem C1_handler_raises_on_array_body :
    lambda_handler loadsArrBody b64none cfg0 w0 (.obj [("body", .str "[1, 2]")])
      = (.error .attributeError, []) := rfl

/-- C4. The claim that a non-string prompt is answered with 400 Missing
prompt is violated by the code for truthy non-string prompts: on the
direct-invoke envelope with prompt the number 1, the expression
(payload.get("prompt") or "").strip() calls .strip() on an int and raises
an uncaught AttributeError; no response is produced and no external call
is made. -/
theorem C4_handler_raises_on_truthy_nonstring_prompt :
    lambda_handler loadsNone b64none cfg0 w0 (.obj [("prompt", .num 1)])
      = (.error .attributeError, []) := rfl

/-- C7. An envelope with a truthy isBase64Encoded flag and a string body
whose base64 decoding fails (including when the decoded bytes are not valid
UTF-8: both failure modes are the b64decode parameter returning none) is
answered with 400 and the error "Invalid base64-encoded body", and no
external call is made — in particular the model is never invoked. -/
theorem C7_invalid_base64_rejected (jsonLoads : String → Option JVal)
    (b64decode : String → Option String) (cfg : Config) (w : World)
    (fs : List (String × JVal)) (bs : String)
    (hbody : fs.lookup "body" = some (.str bs))
    (hflag : truthy (dictGetD fs "isBase64Encoded" .null) = true)
    (hdec : b64decode bs = none) :
    lambda_handler jsonLoads b64decode cfg w (.obj fs)
      = (.ok (_resp 400 (.obj [("error", .str "Invalid base64-encoded body")])), []) := by
  have hpe : _parse_event jsonLoads b64decode (.obj fs)
      = parseErrObj "Invalid base64-encoded body" := by
    simp only [_parse_event, hbody, Option.isSome_some, if_true,
      dictGetD_of_lookup hbody, hflag, hdec]
  unfold lambda_handler
  rw [hpe]
  rfl

/-- C7 witness: a concrete envelope with isBase64Encoded true and a body
for which decoding fails (a single base64 character is 1 mod 4 data
characters, which base64.b64decode rejects). -/
theorem C7_invalid_base64_rejected_witness :
    lambda_handler loadsNone b64none cfg0 w0
        (.obj [("body", .str "A"), ("isBase64Encoded", .bool true)])
      = (.ok (_resp 400 (.obj [("error", .str "Invalid base64-encoded body")])), []) :=
  C7_invalid_base64_rejected loadsNone b64none cfg0 w0 _ "A" rfl rfl rfl

/-- C5. Normalization is transparent. For a mapping m with no body key whose
JSON serialization is s (the round-trip hypothesis hload records that
json.loads on s yields m back, the stdlib contract for s = json.dumps(m)):
the proxied envelope with body s normalizes to exactly m, the same result
as normalizing m directly; and for t the base64 encoding of s (hypothesis
hb64: decoding t yields s), the base64-flagged envelope with body t
normalizes identically to the plain envelope with body s. -/
theorem C5_normalization_transparent (jsonLoads : String → Option JVal)
    (b64decode : String → Option String) (m : List (String × JVal)) (s t : String)
    (hload : jsonLoads s = some (.obj m))
    (hnb : m.lookup "body" = none)
    (hb64 : b64decode t = some s) :
    _parse_event jsonLoads b64decode (.obj [("body", .str s)]) = .obj m
    ∧ _parse_event jsonLoads b64decode (.obj m) = .obj m
    ∧ _parse_event jsonLoads b64decode
        (.obj [("body", .str t), ("isBase64Encoded", .bool true)])
      = _parse_event jsonLoads b64decode (.obj [("body", .str s)]) := by
  refine ⟨?_, ?_, ?_⟩
  · have h1 : _parse_event jsonLoads b64decode (.obj [("body", .str s)])
        = (match jsonLoads s with
           | some v => v
           | none => parseErrObj "Invalid JSON in request body") := rfl
    rw [h1, hload]
  · simp only [_parse_event, hnb]
    simp
  · simp only [_parse_event]
    simp only [show dictGetD [("body", JVal.str t), ("isBase64Encoded", JVal.bool true)]
        "body" JVal.null = JVal.str t from rfl,
      show dictGetD [("body", JVal.str s)] "body" JVal.null = JVal.str s from rfl,
      show truthy (dictGetD [("body", JVal.str t), ("isBase64Encoded", JVal.bool true)]
        "isBase64Encoded" JVal.null) = true from rfl,
      show truthy (dictGetD [("body", JVal.str s)]
        "isBase64Encoded" JVal.null) = false from rfl,
      if_true, if_false, hb64]
    simp

/-- C5 witness: the codec behaviour at a concrete mapping, with "SER" in the
role of the JSON serialization and "B64" in the role of its base64
encoding. -/
theorem C5_normalization_transparent_witness :
    _parse_event loadsRt b64Rt (.obj [("body", .str "SER")])
        = .obj [("prompt", .str "a red fox")]
    ∧ _parse_event loadsRt b64Rt (.obj [("prompt", .str "a red fox")])
        = .obj [("prompt", .str "a red fox")]
    ∧ _parse_event loadsRt b64Rt (.obj [("body", .str "B64"), ("isBase64Encoded", .bool true)])
        = _parse_event loadsRt b64Rt (.obj [("body", .str "SER")]) :=
  C5_normalization_transparent loadsRt b64Rt [("prompt", .str "a red fox")] "SER" "B64"
    rfl rfl rfl

/-- C9 counterexample. The claim that no legitimate request mapping is
mistaken for a normalization error is false: the direct-invoke envelope
carrying both a valid prompt and a field named like the marker normalizes
to itself (normalization did not fail), yet the handler answers 400 with
the spoofed message and never reaches prompt validation. -/
theorem C9_marker_spoofable :
    _parse_event loadsNone b64none
        (.obj [("prompt", .str "a cat"), ("__parse_error__", .str "spoofed")])
      = .obj [("prompt", .str "a cat"), ("__parse_error__", .str "spoofed")]
    ∧ lambda_handler loadsNone b64none cfg0 w0
        (.obj [("prompt", .str "a cat"), ("__parse_error__", .str "spoofed")])
      = (.ok (_resp 400 (.obj [("error", .str "spoofed")])), []) :=
  ⟨rfl, rfl⟩

/-- C9 amended: the handler short-circuits with a 400 response carrying the
value of the normalized payload's marker field whenever that field is
truthy, making no external call. Normalization failures produce exactly
such payloads, but a legitimate direct-invoke mapping carrying its own
truthy marker field is treated identically, so the marker is not a
reserved field distinguishable from legitimate request fields. -/
theorem C9_amended_marker_shortcircuit (jsonLoads : String → Option JVal)
    (b64decode : String → Option String) (cfg : Config) (w : World) (event : JVal)
    (fs : List (String × JVal))
    (hpe : _parse_event jsonLoads b64decode event = .obj fs)
    (hmark : truthy (dictGetD fs "__parse_error__" .null) = true) :
    lambda_handler jsonLoads b64decode cfg w event
      = (.ok (_resp 400 (.obj [("error", dictGetD fs "__parse_error__" .null)])), []) := by
  unfold lambda_handler
  rw [hpe]
  simp only [pyGet, hmark, if_true]

/-- C9 amended witness: a genuine normalization failure (a body that is
neither a string nor a mapping) sets the marker and the handler returns the
marker 400. -/
theorem C9_amended_marker_shortcircuit_witness :
    lambda_handler loadsNone b64none cfg0 w0 (.obj [("body", .num 5)])
      = (.ok (_resp 400 (.obj [("error", .str "Unsupported body format")])), []) :=
  C9_amended_marker_shortcircuit loadsNone b64none cfg0 w0 (.obj [("body", .num 5)])
    [("__parse_error__", .str "Unsupported body format")] rfl rfl

/-- C10 counterexample. The claim that the normalized request is derived
solely from the body value is false: two envelopes with the same body value
but different isBase64Encoded fields normalize differently. The string of
four digits parses as a JSON number (loadsNum) while its base64 decoding
fails (its decoded bytes are not valid UTF-8, so b64none records none). -/
theorem C10_not_solely_body :
    dictGetD [("body", JVal.str "1234")] "body" .null
      = dictGetD [("body", JVal.str "1234"), ("isBase64Encoded", JVal.bool true)] "body" .null
    ∧ _parse_event loadsNum b64none (.obj [("body", .str "1234")])
      ≠ _parse_event loadsNum b64none
          (.obj [("body", .str "1234"), ("isBase64Encoded", .bool true)]) :=
  ⟨rfl, fun h => nomatch h⟩

/-- C10 amended: the normalized request of a mapping envelope containing a
body key is derived solely from the body value and the truthiness of the
isBase64Encoded field; every other top-level field — including a top-level
prompt — is ignored. -/
theorem C10_amended_body_and_flag (jsonLoads : String → Option JVal)
    (b64decode : String → Option String) (fs1 fs2 : List (String × JVal))
    (h1 : (fs1.lookup "body").isSome = true)
    (h2 : (fs2.lookup "body").isSome = true)
    (hb : dictGetD fs1 "body" .null = dictGetD fs2 "body" .null)
    (hf : truthy (dictGetD fs1 "isBase64Encoded" .null)
        = truthy (dictGetD fs2 "isBase64Encoded" .null)) :
    _parse_event jsonLoads b64decode (.obj fs1)
      = _parse_event jsonLoads b64decode (.obj fs2) := by
  simp only [_parse_event]
  rw [h1, h2, hb, hf]
  simp

/-- C10 amended witness: a top-level prompt next to a body field does not
change the normalized request. -/
theorem C10_amended_body_and_flag_witness :
    _parse_event loadsNone b64none
        (.obj [("body", .str "X"), ("prompt", .str "a cat")])
      = _parse_event loadsNone b64none (.obj [("body", .str "X")]) :=
  C10_amended_body_and_flag loadsNone b64none
    [("body", .str "X"), ("prompt", .str "a cat")] [("body", .str "X")] rfl rfl rfl rfl

/-- C3. For a normalized payload (not flagged by the normalization marker)
whose prompt is a string: a prompt of exactly 800 characters after trimming
is accepted and the handler proceeds to invoke the model (the model
invocation heads the effect list), while 801 or more characters yield 400
with "Prompt too long (max 800 chars)" and no external call at all. -/
theorem C3_prompt_length_boundary (jsonLoads : String → Option JVal)
    (b64decode : String → Option String) (cfg : Config) (w : World) (event : JVal)
    (fs : List (String × JVal)) (s0 : String)
    (hpe : _parse_event jsonLoads b64decode event = .obj fs)
    (hmark : truthy (dictGetD fs "__parse_error__" .null) = false)
    (hprompt : dictGetD fs "prompt" .null = .str s0) :
    ((pyStrip s0).length = 800 →
      ∃ t, (lambda_handler jsonLoads b64decode cfg w event).snd
        = Effect.invokeModel cfg.modelId (pyStrip s0) :: t)
    ∧ (801 ≤ (pyStrip s0).length →
      lambda_handler jsonLoads b64decode cfg w event
        = (.ok (_resp 400 (.obj [("error", .str "Prompt too long (max 800 chars)")])), [])) := by
  constructor
  · intro h800
    have hne : pyStrip s0 ≠ "" := by
      intro h
      rw [h] at h800
      simp at h800
    rw [handler_valid_prompt jsonLoads b64decode cfg w event fs s0 hpe hmark hprompt hne
      (le_of_eq h800)]
    exact modelStage_effs jsonLoads b64decode cfg w (pyStrip s0)
  · intro h801
    have hne : ¬(pyStrip s0 = "") := by
      intro h
      rw [h] at h801
      simp at h801
    unfold lambda_handler
    rw [hpe]
    simp only [pyGet, hmark, hprompt, pyOr_str_empty, Bool.false_eq_true, if_false,
      if_neg hne, if_pos (show 800 < (pyStrip s0).length by omega)]

set_option maxRecDepth 20000 in
/-- C3 witness: an 800-character prompt reaches the model invocation; an
801-character prompt is rejected with the length error and no call. -/
theorem C3_prompt_length_boundary_witness :
    (∃ t, (lambda_handler loadsNone b64none cfg0 w0 ev800).snd
      = Effect.invokeModel cfg0.modelId (pyStrip s800) :: t)
    ∧ lambda_handler loadsNone b64none cfg0 w0 ev801
      = (.ok (_resp 400 (.obj [("error", .str "Prompt too long (max 800 chars)")])), []) := by
  constructor
  · exact (C3_prompt_length_boundary loadsNone b64none cfg0 w0 ev800
      [("prompt", .str s800)] s800 rfl rfl rfl).1 (by decide)
  · exact (C3_prompt_length_boundary loadsNone b64none cfg0 w0 ev801
      [("prompt", .str s801)] s801 rfl rfl rfl).2 (by decide)

/-- C6. When the model response parses to a payload whose finish_reasons
list is non-empty with a non-null first entry, the handler returns 400 with
the error "Filtered/failed" and the finish_reasons list echoed verbatim,
and no storage write occurs: the only external call is the model
invocation. -/
theorem C6_filtered_echoed (jsonLoads : String → Option JVal)
    (b64decode : String → Option String) (cfg : Config) (w : World) (event : JVal)
    (fs dataFs : List (String × JVal)) (s0 raw : String) (r : JVal) (rs : List JVal)
    (hpe : _parse_event jsonLoads b64decode event = .obj fs)
    (hmark : truthy (dictGetD fs "__parse_error__" .null) = false)
    (hprompt : dictGetD fs "prompt" .null = .str s0)
    (hne : pyStrip s0 ≠ "")
    (hlen : (pyStrip s0).length ≤ 800)
    (hbr : w.bedrockBody = some raw)
    (hdata : jsonLoads raw = some (.obj dataFs))
    (hfr : dictGetD dataFs "finish_reasons" (.arr []) = .arr (r :: rs))
    (hr : isNone r = false) :
    lambda_handler jsonLoads b64decode cfg w event
      = (.ok (_resp 400 (.obj [("error", .str "Filtered/failed"),
            ("finish_reasons", .arr (r :: rs))])),
         [Effect.invokeModel cfg.modelId (pyStrip s0)])
    ∧ ∀ e ∈ (lambda_handler jsonLoads b64decode cfg w event).snd, e.isS3Put = false := by
  have hwd : withData b64decode cfg w (.obj dataFs)
      = (.ok (_resp 400 (.obj [("error", .str "Filtered/failed"),
            ("finish_reasons", .arr (r :: rs))])), []) := by
    unfold withData
    simp only [pyGetD]
    rw [hfr]
    simp [truthy, pyIndex0, hr]
  have heq : lambda_handler jsonLoads b64decode cfg w event
      = (.ok (_resp 400 (.obj [("error", .str "Filtered/failed"),
            ("finish_reasons", .arr (r :: rs))])),
         [Effect.invokeModel cfg.modelId (pyStrip s0)]) := by
    rw [handler_valid_prompt jsonLoads b64decode cfg w event fs s0 hpe hmark hprompt hne hlen,
      modelStage_to_withData jsonLoads b64decode cfg w (pyStrip s0) raw (.obj dataFs) hbr hdata,
      hwd]
  refine ⟨heq, ?_⟩
  rw [heq]
  intro e he
  simp only [List.mem_singleton] at he
  subst he
  rfl

/-- C6 witness: a response with first finish reason CONTENT_FILTERED is
echoed in a 400 and no storage write happens. -/
theorem C6_filtered_echoed_witness :
    lambda_handler loadsFiltered b64none cfg0 wOk (.obj [("prompt", .str "a cat")])
      = (.ok (_resp 400 (.obj [("error", .str "Filtered/failed"),
            ("finish_reasons", .arr [.str "CONTENT_FILTERED", JVal.null])])),
         [Effect.invokeModel cfg0.modelId (pyStrip "a cat")])
    ∧ ∀ e ∈ (lambda_handler loadsFiltered b64none cfg0 wOk
        (.obj [("prompt", .str "a cat")])).snd, e.isS3Put = false :=
  C6_filtered_echoed loadsFiltered b64none cfg0 wOk (.obj [("prompt", .str "a cat")])
    [("prompt", .str "a cat")] dataFiltered "a cat" "RAW" (.str "CONTENT_FILTERED") [JVal.null]
    rfl rfl rfl (by decide) (by decide) rfl rfl rfl rfl

/-- C8. When the model call succeeds with a decodable image but the storage
write fails, the handler returns 502 with "S3 upload failed"; no presign
call is made and the body carries no URL. -/
theorem C8_storage_failure (jsonLoads : String → Option JVal)
    (b64decode : String → Option String) (cfg : Config) (w : World) (event : JVal)
    (fs dataFs : List (String × JVal)) (s0 raw : String) (frs : List JVal)
    (imgv : JVal) (imgs : List JVal) (img bytes : String)
    (hpe : _parse_event jsonLoads b64decode event = .obj fs)
    (hmark : truthy (dictGetD fs "__parse_error__" .null) = false)
    (hprompt : dictGetD fs "prompt" .null = .str s0)
    (hne : pyStrip s0 ≠ "")
    (hlen : (pyStrip s0).length ≤ 800)
    (hbr : w.bedrockBody = some raw)
    (hdata : jsonLoads raw = some (.obj dataFs))
    (hfr : dictGetD dataFs "finish_reasons" (.arr []) = .arr frs)
    (hfr0 : frs = [] ∨ ∃ ts, frs = JVal.null :: ts)
    (himg : dictGetD dataFs "images" .null = .arr (imgv :: imgs))
    (himgstr : imgv = .str img)
    (hdec : b64decode img = some bytes)
    (hput : w.s3PutOk = false) :
    lambda_handler jsonLoads b64decode cfg w event
      = (.ok (_resp 502 (.obj [("error", .str "S3 upload failed")])),
         [Effect.invokeModel cfg.modelId (pyStrip s0),
          Effect.s3Put cfg.outputBucket (keyOf cfg w) bytes])
    ∧ ∀ e ∈ (lambda_handler jsonLoads b64decode cfg w event).snd, e.isPresign = false := by
  have heq : lambda_handler jsonLoads b64decode cfg w event
      = (.ok (_resp 502 (.obj [("error", .str "S3 upload failed")])),
         [Effect.invokeModel cfg.modelId (pyStrip s0),
          Effect.s3Put cfg.outputBucket (keyOf cfg w) bytes]) := by
    rw [handler_valid_prompt jsonLoads b64decode cfg w event fs s0 hpe hmark hprompt hne hlen,
      modelStage_to_withData jsonLoads b64decode cfg w (pyStrip s0) raw (.obj dataFs) hbr hdata,
      withData_to_images b64decode cfg w dataFs frs hfr hfr0,
      imagesStage_to_publish b64decode cfg w dataFs imgv imgs img bytes himg himgstr hdec,
      publishStage_fail cfg w dataFs bytes hput]
  refine ⟨heq, ?_⟩
  rw [heq]
  intro e he
  simp only [List.mem_cons, List.mem_singleton] at he
  rcases he with he | he | he
  · subst he; rfl
  · subst he; rfl
  · cases he

/-- C8 witness: concrete successful model call, decodable image, failing
storage write. -/
theorem C8_storage_failure_witness :
    lambda_handler loadsOk b64Ok cfg0 wPutFail (.obj [("prompt", .str "a cat")])
      = (.ok (_resp 502 (.obj [("error", .str "S3 upload failed")])),
         [Effect.invokeModel cfg0.modelId (pyStrip "a cat"),
          Effect.s3Put cfg0.outputBucket (keyOf cfg0 wPutFail) "IMGBYTES"])
    ∧ ∀ e ∈ (lambda_handler loadsOk b64Ok cfg0 wPutFail
        (.obj [("prompt", .str "a cat")])).snd, e.isPresign = false :=
  C8_storage_failure loadsOk b64Ok cfg0 wPutFail (.obj [("prompt", .str "a cat")])
    [("prompt", .str "a cat")] dataOk "a cat" "RAW" [JVal.null] (.str "IMG") [] "IMG" "IMGBYTES"
    rfl rfl rfl (by decide) (by decide) rfl rfl rfl (Or.inr ⟨[], rfl⟩) rfl rfl rfl rfl

/-- C2. A fully successful run (valid prompt, model returns at least one
image with null or absent finish reason, storage write succeeds, presign
succeeds with a non-empty URL) yields status 200 whose body carries the
configured bucket, the key (configured prefix, then the literal poster_
segment, the strftime timestamp, an underscore, the first ten characters
of the uuid hex, and the .png suffix — with the timestamp 14 decimal
digits of YYYYMMDDHHMMSS form and the identifier 10 lowercase hex
characters), the URL produced by the presign call (made with a
3600-second expiry, as the recorded effect shows), the first element of
the seeds list (null when absent or empty) and the configured model
identifier. -/
theorem C2_success_response (jsonLoads : String → Option JVal)
    (b64decode : String → Option String) (cfg : Config) (w : World) (event : JVal)
    (fs dataFs : List (String × JVal)) (s0 raw : String) (frs : List JVal)
    (imgv : JVal) (imgs : List JVal) (img bytes url : String)
    (hpe : _parse_event jsonLoads b64decode event = .obj fs)
    (hmark : truthy (dictGetD fs "__parse_error__" .null) = false)
    (hprompt : dictGetD fs "prompt" .null = .str s0)
    (hne : pyStrip s0 ≠ "")
    (hlen : (pyStrip s0).length ≤ 800)
    (hbr : w.bedrockBody = some raw)
    (hdata : jsonLoads raw = some (.obj dataFs))
    (hfr : dictGetD dataFs "finish_reasons" (.arr []) = .arr frs)
    (hfr0 : frs = [] ∨ ∃ ts, frs = JVal.null :: ts)
    (himg : dictGetD dataFs "images" .null = .arr (imgv :: imgs))
    (himgstr : imgv = .str img)
    (hdec : b64decode img = some bytes)
    (hput : w.s3PutOk = true)
    (hurl : w.presignUrl = some url)
    (hurlne : url ≠ "")
    (hseeds : dictGetD dataFs "seeds" .null = .null
      ∨ ∃ l, dictGetD dataFs "seeds" .null = .arr l)
    (hnow : validDT w.now = true)
    (huuid : w.uuid4 < 2 ^ 128) :
    lambda_handler jsonLoads b64decode cfg w event
      = (.ok (_resp 200 (.obj [("bucket", .str cfg.outputBucket),
            ("key", .str (keyOf cfg w)), ("url", .str url),
            ("seed", headSeed dataFs), ("modelId", .str cfg.modelId)])),
         [Effect.invokeModel cfg.modelId (pyStrip s0),
          Effect.s3Put cfg.outputBucket (keyOf cfg w) bytes,
          Effect.presign cfg.outputBucket (keyOf cfg w) 3600])
    ∧ keyOf cfg w = cfg.keyPfx ++ "poster_" ++ strftimeYmdHMS w.now ++ "_"
        ++ strTake (uuidHex w.uuid4) 10 ++ ".png"
    ∧ (strftimeYmdHMS w.now).length = 14
    ∧ ((strftimeYmdHMS w.now).data.all Char.isDigit) = true
    ∧ (strTake (uuidHex w.uuid4) 10).length = 10
    ∧ ((strTake (uuidHex w.uuid4) 10).data.all isHexLower) = true
    ∧ url ≠ "" := by
  refine ⟨?_, rfl, (strftime_length_digits hnow).1, (strftime_length_digits hnow).2,
    (rid_length_hex huuid).1, (rid_length_hex huuid).2, hurlne⟩
  rw [handler_valid_prompt jsonLoads b64decode cfg w event fs s0 hpe hmark hprompt hne hlen,
    modelStage_to_withData jsonLoads b64decode cfg w (pyStrip s0) raw (.obj dataFs) hbr hdata,
    withData_to_images b64decode cfg w dataFs frs hfr hfr0,
    imagesStage_to_publish b64decode cfg w dataFs imgv imgs img bytes himg himgstr hdec,
    publishStage_ok cfg w dataFs bytes url hput hurl hseeds]

/-- C2 witness: a concrete fully successful run through the embedded
handler, including the key-shape facts. -/
theorem C2_success_response_witness :
    lambda_handler loadsOk b64Ok cfg0 wOk (.obj [("prompt", .str "a red fox")])
      = (.ok (_resp 200 (.obj [("bucket", .str cfg0.outputBucket),
            ("key", .str (keyOf cfg0 wOk)), ("url", .str "https://s3.example/signed"),
            ("seed", headSeed dataOk), ("modelId", .str cfg0.modelId)])),
         [Effect.invokeModel cfg0.modelId (pyStrip "a red fox"),
          Effect.s3Put cfg0.outputBucket (keyOf cfg0 wOk) "IMGBYTES",
          Effect.presign cfg0.outputBucket (keyOf cfg0 wOk) 3600])
    ∧ keyOf cfg0 wOk = cfg0.keyPfx ++ "poster_" ++ strftimeYmdHMS wOk.now ++ "_"
        ++ strTake (uuidHex wOk.uuid4) 10 ++ ".png"
    ∧ (strftimeYmdHMS wOk.now).length = 14
    ∧ ((strftimeYmdHMS wOk.now).data.all Char.isDigit) = true
    ∧ (strTake (uuidHex wOk.uuid4) 10).length = 10
    ∧ ((strTake (uuidHex wOk.uuid4) 10).data.all isHexLower) = true
    ∧ ("https://s3.example/signed" : String) ≠ "" :=
  C2_success_response loadsOk b64Ok cfg0 wOk (.obj [("prompt", .str "a red fox")])
    [("prompt", .str "a red fox")] dataOk "a red fox" "RAW" [JVal.null] (.str "IMG") []
    "IMG" "IMGBYTES" "https://s3.example/signed"
    rfl rfl rfl (by decide) (by decide) rfl rfl rfl (Or.inr ⟨[], rfl⟩) rfl rfl rfl rfl rfl
    (by decide) (Or.inr ⟨[.num 12], rfl⟩) (by decide) (by decide)

end ImgGen
